import Mathlib

/-!
Shallow embedding of the Server-roast repository (src/server.js).

The file models the roast classifier `generateRoast`, the two variants of the
POST /api/roast/text handler, the POST /api/roast/audio handler, and the
`initializeModel` load guard. JavaScript's `Math.random()` draw is modelled by
an arbitrary natural number `draw` reduced modulo the line-list length, so a
quantification over `draw : Nat` covers every possible random outcome. The
external Whisper pipeline call is modelled by an `Except String String`
parameter (an exception message or the transcribed text), so a statement that
holds for every value of that parameter holds regardless of what the external
model would do. JavaScript request-body values are modelled by `JsValue`
(numbers simplified to `Int`; the claims only depend on truthiness and the
`typeof x === "string"` test).
-/

namespace ServerRoast

/-- JavaScript `haystack.includes(needle)` on character lists: true iff
`needle` occurs contiguously in `haystack` (the empty needle always occurs). -/
def listIncludes (haystack needle : List Char) : Bool :=
  match haystack with
  | [] => needle.isEmpty
  | c :: rest => needle.isPrefixOf (c :: rest) || listIncludes rest needle

/-- JavaScript `s.includes(sub)` on strings. -/
def strIncludes (s sub : String) : Bool :=
  listIncludes s.data sub.data

/-- JavaScript `topic.toLowerCase()`, modelled character by character with
`Char.toLower` (the keywords and the claims' inputs are ASCII, where the two
case foldings agree). -/
def jsToLower (s : String) : String :=
  ⟨s.data.map Char.toLower⟩

/-- JavaScript `s.trim()`: strip leading and trailing whitespace. -/
def jsTrim (s : String) : String :=
  ⟨((s.data.dropWhile Char.isWhitespace).reverse.dropWhile Char.isWhitespace).reverse⟩

/-- The five roast categories of `generateRoast` (keys of `roastTemplates`). -/
inductive Category where
  | fashion
  | food
  | tech
  | talent
  | default
deriving DecidableEq, Repr

/-- The fixed line table `roastTemplates` from `generateRoast` in
src/server.js, verbatim. -/
def roastTemplates : Category → List String
  | .fashion =>
      [ "Your fashion sense is so bad, even a scarecrow would give you fashion advice.",
        "If ugly were a crime, your outfit would be a life sentence without parole.",
        "Your style is what happens when a blindfolded person dresses in the dark during a power outage." ]
  | .food =>
      [ "That food choice is so wrong, even the garbage can would reject it.",
        "Your taste in food is what happens when someone lets a toddler plan the menu.",
        "That dish is so bad, it makes cafeteria food look like a Michelin-star meal." ]
  | .tech =>
      [ "Your tech skills are so outdated, you make dial-up internet look cutting edge.",
        "If incompetence were code, you'd be the entire Stack Overflow of failure.",
        "Your coding is so bad, even a broken keyboard would produce better output." ]
  | .talent =>
      [ "Your talent is so limited, it makes a rock look multi-talented.",
        "If failure were an Olympic sport, you'd be the gold medalist, world record holder, and defending champion.",
        "Your skills are so poor, even a participation trophy would feel insulted to be given to you." ]
  | .default =>
      [ "is so disappointing, even my AI feelings got hurt analyzing it.",
        "makes me wish I was a simple calculator instead of dealing with this.",
        "is the reason why aliens won't talk to us." ]

/-- The `fashion` guard of `generateRoast`:
`topicLower.includes('fashion') || ... || topicLower.includes('outfit')`. -/
def fashionKeywords (topicLower : String) : Bool :=
  strIncludes topicLower "fashion" || strIncludes topicLower "cloth" ||
    strIncludes topicLower "dress" || strIncludes topicLower "style" ||
    strIncludes topicLower "outfit"

/-- The `food` guard of `generateRoast`. -/
def foodKeywords (topicLower : String) : Bool :=
  strIncludes topicLower "food" || strIncludes topicLower "pizza" ||
    strIncludes topicLower "eat" || strIncludes topicLower "dish" ||
    strIncludes topicLower "pineapple"

/-- The `tech` guard of `generateRoast`. -/
def techKeywords (topicLower : String) : Bool :=
  strIncludes topicLower "tech" || strIncludes topicLower "code" ||
    strIncludes topicLower "computer" || strIncludes topicLower "program"

/-- The `talent` guard of `generateRoast`. -/
def talentKeywords (topicLower : String) : Bool :=
  strIncludes topicLower "sing" || strIncludes topicLower "talent" ||
    strIncludes topicLower "skill" || strIncludes topicLower "voice"

/-- The if/else-if cascade of `generateRoast` applied to the already
lower-cased topic: first matching guard wins, otherwise `default`. -/
def classifyLower (topicLower : String) : Category :=
  if fashionKeywords topicLower then .fashion
  else if foodKeywords topicLower then .food
  else if techKeywords topicLower then .tech
  else if talentKeywords topicLower then .talent
  else .default

/-- The object `{ roast, category }` returned by `generateRoast`. -/
structure RoastData where
  roast : String
  category : Category
deriving DecidableEq, Repr

/-- `generateRoast(topic)` from src/server.js. `draw` stands for the value of
`Math.random()`: `Math.floor(Math.random() * roasts.length)` is a uniform
index into `roasts`, modelled as `draw % roasts.length`. For `default` the
roast is the quoted original-case topic, a space, and the drawn fragment; for
the four named categories the drawn line is returned verbatim. -/
def generateRoast (topic : String) (draw : Nat) : RoastData :=
  let topicLower := jsToLower topic
  let category := classifyLower topicLower
  let roasts := roastTemplates category
  let randomRoast := roasts.getD (draw % roasts.length) ""
  { roast :=
      if category = Category.default then "\"" ++ topic ++ "\" " ++ randomRoast
      else randomRoast,
    category := category }

/-! ### Spec-side classifier

`specClassify` follows the words of the specification, not the source: an
ordered rule list `fashion > food > tech > talent`, each rule a keyword set,
the earliest matching rule wins, otherwise `default`. It exists only to be
compared with the classifier embedded from the source. -/

/-- Keyword set of each category, as listed in the specification. -/
def keywordsOf : Category → List String
  | .fashion => ["fashion", "cloth", "dress", "style", "outfit"]
  | .food => ["food", "pizza", "eat", "dish", "pineapple"]
  | .tech => ["tech", "code", "computer", "program"]
  | .talent => ["sing", "talent", "skill", "voice"]
  | .default => []

/-- The fixed priority order of the specification. -/
def categoryOrder : List Category :=
  [Category.fashion, Category.food, Category.tech, Category.talent]

/-- Modelled from the spec: evaluate category rules in fixed priority order,
first match wins, no fallthrough; `default` when no rule matches. -/
def specClassify (topic : String) : Category :=
  let topicLower := jsToLower topic
  (categoryOrder.find? fun c =>
      (keywordsOf c).any fun k => strIncludes topicLower k).getD Category.default

/-! ### HTTP request values and the text handlers -/

/-- A JavaScript request-body value, as far as the handlers inspect it.
Numbers are simplified to `Int`: the handlers only test truthiness and
`typeof x === "string"`. `vUndefined` is a missing `text` field. -/
inductive JsValue where
  | vString (s : String)
  | vNumber (n : Int)
  | vBool (b : Bool)
  | vNull
  | vUndefined
deriving DecidableEq, Repr

/-- JavaScript falsiness, the meaning of `!text`: the empty string, `0`,
`false`, `null` and `undefined` are falsy. -/
def jsFalsy : JsValue → Bool
  | .vString s => s == ""
  | .vNumber n => n == 0
  | .vBool b => !b
  | .vNull => true
  | .vUndefined => true

/-- JavaScript `typeof x === "string"`. -/
def isString : JsValue → Bool
  | .vString _ => true
  | _ => false

/-- `generateRoast(text)` as called by the handlers on a raw body value:
on a string it runs `generateRoast`; on any non-string value
`topic.toLowerCase()` throws a `TypeError`, modelled as `Except.error`. -/
def generateRoastJs (v : JsValue) (draw : Nat) : Except String RoastData :=
  match v with
  | .vString s => Except.ok (generateRoast s draw)
  | _ => Except.error "topic.toLowerCase is not a function"

/-- Outcome of the POST /api/roast/text handler: a 400 response with its
error message, a 200 response with the JSON body fields, or the 500 response
produced by the surrounding try/catch. -/
inductive TextResponse where
  | badRequest (error : String)
  | ok (transcript : JsValue) (roast : String) (category : Category)
  | serverError
deriving DecidableEq, Repr

/-- First variant of the POST /api/roast/text handler (src/server.js lines
147-166): reject falsy `text` with 400, otherwise call the roast generator
`g` on `text`; a thrown exception is caught and answered with 500. The
generator is a parameter so that theorems can state that a response is
produced without consulting it. The deployed handler is
`handleTextV1 generateRoastJs`. -/
def handleTextV1 (g : JsValue → Nat → Except String RoastData)
    (text : JsValue) (draw : Nat) : TextResponse :=
  if jsFalsy text then TextResponse.badRequest "Text is required"
  else
    match g text draw with
    | Except.error _ => TextResponse.serverError
    | Except.ok r => TextResponse.ok text r.roast r.category

/-- Second variant of the POST /api/roast/text handler (src/server.js lines
388-411): like the first, but additionally rejects a non-string `text` with
400 before calling the roast generator. -/
def handleTextV2 (g : JsValue → Nat → Except String RoastData)
    (text : JsValue) (draw : Nat) : TextResponse :=
  if jsFalsy text then TextResponse.badRequest "Text is required"
  else if !isString text then TextResponse.badRequest "Text must be a string"
  else
    match g text draw with
    | Except.error _ => TextResponse.serverError
    | Except.ok r => TextResponse.ok text r.roast r.category

/-! ### The audio handler -/

/-- Outcome of the POST /api/roast/audio handler: 400 with its message, 503
while the model is not loaded, a 200 response, or the 500 response of the
surrounding try/catch. -/
inductive AudioResponse where
  | badRequest (error : String)
  | serviceUnavailable (error : String)
  | ok (transcript roast : String) (category : Category)
  | serverError (error : String)
deriving DecidableEq, Repr

/-- The POST /api/roast/audio handler (both variants in src/server.js have
identical control flow): reject a missing file with 400; while `modelLoaded`
is false answer 503 without touching the pipeline; otherwise the Whisper call
is modelled by `transcription` (`Except.error msg` for a thrown exception,
caught as 500; `Except.ok text` for a transcript). An empty or
whitespace-only transcript is answered with 400, otherwise the transcript is
roasted. -/
def handleAudio (hasFile : Bool) (modelLoaded : Bool)
    (transcription : Except String String) (draw : Nat) : AudioResponse :=
  if !hasFile then AudioResponse.badRequest "Audio file is required"
  else if !modelLoaded then
    AudioResponse.serviceUnavailable "Model not loaded yet. Please try again in a moment."
  else
    match transcription with
    | Except.error msg => AudioResponse.serverError ("Error processing audio: " ++ msg)
    | Except.ok text =>
      if text == "" || (jsTrim text).length == 0 then
        AudioResponse.badRequest "Could not transcribe audio. Please try again with clearer audio."
      else
        let r := generateRoast text draw
        AudioResponse.ok text r.roast r.category

/-! ### The model-load guard -/

/-- The module-level mutable state around `initializeModel`: the
`whisperPipeline` handle (abstracted to `Option Unit`: absent or present) and
the two flags. -/
structure ServerModelState where
  whisperPipeline : Option Unit
  modelLoading : Bool
  modelLoaded : Bool
deriving DecidableEq, Repr

/-- Whether the awaited `pipeline(...)` call inside `initializeModel`
succeeds or throws. -/
inductive LoadOutcome where
  | success
  | failure
deriving DecidableEq, Repr

/-- `initializeModel()` from src/server.js, run to completion: if
`modelLoading` is already true it returns at once; otherwise it sets
`modelLoading`, awaits the pipeline load (`outcome`), on success stores the
handle and sets `modelLoaded`, on failure clears `modelLoaded`, and finally
clears `modelLoading`. The returned `Bool` records whether the underlying
pipeline load was started. -/
def initializeModel (s : ServerModelState) (outcome : LoadOutcome) :
    ServerModelState × Bool :=
  if s.modelLoading then (s, false)
  else
    match outcome with
    | .success =>
        ({ whisperPipeline := some (), modelLoading := false, modelLoaded := true }, true)
    | .failure =>
        ({ s with modelLoading := false, modelLoaded := false }, true)

/-! ### Helper lemmas -/

/-- The category field of `generateRoast` is the if/else-if cascade on the
lower-cased topic. -/
lemma generateRoast_category (t : String) (d : Nat) :
    (generateRoast t d).category = classifyLower (jsToLower t) := rfl

/-- An in-bounds `List.getD` is a member of the list. -/
lemma getD_mem {α : Type} (x : α) : ∀ (l : List α) (i : Nat), i < l.length → l.getD i x ∈ l
  | [], i, h => absurd h (Nat.not_lt_zero i)
  | a :: l, 0, _ => List.mem_cons_self a l
  | a :: l, i + 1, h =>
      List.mem_cons_of_mem a (getD_mem x l i (Nat.lt_of_succ_lt_succ h))

/-- Indexing by anything reduced modulo the length of a nonempty list stays in
the list; this is how `Math.floor(Math.random() * roasts.length)` indexes. -/
lemma getD_mod_mem {α : Type} (x : α) (l : List α) (d : Nat) (h : l ≠ []) :
    l.getD (d % l.length) x ∈ l :=
  getD_mem x l _ (Nat.mod_lt d (List.length_pos.mpr h))

/-- Every category owns at least one line. -/
lemma roastTemplates_ne_nil (c : Category) : roastTemplates c ≠ [] := by
  cases c <;> simp [roastTemplates]

/-- The spec-side `fashion` keyword rule agrees with the source's guard. -/
lemma keywords_any_fashion (tl : String) :
    ((keywordsOf Category.fashion).any fun k => strIncludes tl k) = fashionKeywords tl := by
  simp [keywordsOf, fashionKeywords, Bool.or_assoc]

/-- The spec-side `food` keyword rule agrees with the source's guard. -/
lemma keywords_any_food (tl : String) :
    ((keywordsOf Category.food).any fun k => strIncludes tl k) = foodKeywords tl := by
  simp [keywordsOf, foodKeywords, Bool.or_assoc]

/-- The spec-side `tech` keyword rule agrees with the source's guard. -/
lemma keywords_any_tech (tl : String) :
    ((keywordsOf Category.tech).any fun k => strIncludes tl k) = techKeywords tl := by
  simp [keywordsOf, techKeywords, Bool.or_assoc]

/-- The spec-side `talent` keyword rule agrees with the source's guard. -/
lemma keywords_any_talent (tl : String) :
    ((keywordsOf Category.talent).any fun k => strIncludes tl k) = talentKeywords tl := by
  simp [keywordsOf, talentKeywords, Bool.or_assoc]

/-! ### Claims -/

/-- Claim C1, counterexample: the claim says every topic containing "pizza"
(any case) is classified `food`, but the topic "my pizza outfit" contains
"pizza" and `generateRoast` classifies it `fashion`, which is not `food` —
the `fashion` rule is checked first and "outfit" matches it. -/
theorem C1_pizza_counterexample :
    strIncludes (jsToLower "my pizza outfit") "pizza" = true ∧
    (generateRoast "my pizza outfit" 0).category = Category.fashion ∧
    Category.fashion ≠ Category.food := by
  decide

/-- Claim C1, amended: every topic whose lower-cased form contains "pizza"
and matches no `fashion` keyword is classified `food`, for every random
draw. -/
theorem C1_pizza_amended (t : String) (d : Nat)
    (hp : strIncludes (jsToLower t) "pizza" = true)
    (hf : fashionKeywords (jsToLower t) = false) :
    (generateRoast t d).category = Category.food := by
  rw [generateRoast_category]
  simp [classifyLower, foodKeywords, hp, hf]

/-- Claim C1, witness: "I love PIZZA" contains "pizza" after lower-casing,
matches no fashion keyword, and is classified `food`. -/
theorem C1_pizza_amended_witness :
    (strIncludes (jsToLower "I love PIZZA") "pizza" = true ∧
     fashionKeywords (jsToLower "I love PIZZA") = false) ∧
    (generateRoast "I love PIZZA" 0).category = Category.food :=
  ⟨⟨by decide, by decide⟩, C1_pizza_amended "I love PIZZA" 0 (by decide) (by decide)⟩

/-- Claim C2: the category `generateRoast` assigns coincides, for every topic
and draw, with the spec-side first-match evaluation of the ordered rule list
fashion > food > tech > talent with `default` fallback; in particular the
topic "my pizza outfit" is assigned `fashion`, not `food`. -/
theorem C2_priority_first_match (t : String) (d : Nat) :
    (generateRoast t d).category = specClassify t ∧
    (generateRoast "my pizza outfit" d).category = Category.fashion := by
  refine ⟨?_, rfl⟩
  rw [generateRoast_category]
  cases hf : fashionKeywords (jsToLower t) <;>
    cases hfo : foodKeywords (jsToLower t) <;>
      cases ht : techKeywords (jsToLower t) <;>
        cases hta : talentKeywords (jsToLower t) <;>
          simp [specClassify, categoryOrder, List.find?, classifyLower,
            keywords_any_fashion, keywords_any_food, keywords_any_tech,
            keywords_any_talent, hf, hfo, ht, hta]

/-- Claim C3: a topic matching no category keyword gets category `default`
and a roast equal to the quoted original-case topic, a space, and one of the
three default fragments; a topic assigned a named category gets one of that
category's three fixed lines verbatim, with no topic interpolation — both for
every random draw. -/
theorem C3_roast_assembly (t : String) (d : Nat) :
    (fashionKeywords (jsToLower t) = false → foodKeywords (jsToLower t) = false →
     techKeywords (jsToLower t) = false → talentKeywords (jsToLower t) = false →
      (generateRoast t d).category = Category.default ∧
      (generateRoast t d).roast ∈
        ((roastTemplates Category.default).map fun f => "\"" ++ t ++ "\" " ++ f)) ∧
    ((generateRoast t d).category ≠ Category.default →
      (generateRoast t d).roast ∈ roastTemplates ((generateRoast t d).category)) := by
  constructor
  · intro h1 h2 h3 h4
    have hc : classifyLower (jsToLower t) = Category.default := by
      simp [classifyLower, h1, h2, h3, h4]
    constructor
    · rw [generateRoast_category, hc]
    · have hr : (generateRoast t d).roast =
          "\"" ++ t ++ "\" " ++
            (roastTemplates Category.default).getD
              (d % (roastTemplates Category.default).length) "" := by
        simp only [generateRoast, hc, if_pos]
      rw [hr]
      exact List.mem_map_of_mem _
        (getD_mod_mem "" (roastTemplates Category.default) d
          (roastTemplates_ne_nil Category.default))
  · intro h
    rw [generateRoast_category] at h
    have hr : (generateRoast t d).roast =
        (roastTemplates (classifyLower (jsToLower t))).getD
          (d % (roastTemplates (classifyLower (jsToLower t))).length) "" := by
      simp only [generateRoast, if_neg h]
    rw [generateRoast_category, hr]
    exact getD_mod_mem "" _ d (roastTemplates_ne_nil _)

/-- Claim C3, witness: "llama" matches no keyword and gets a quoted-topic
default roast; "I cannot sing" is assigned a named category and its roast is
one of that category's fixed lines. -/
theorem C3_roast_assembly_witness :
    ((generateRoast "llama" 0).category = Category.default ∧
     (generateRoast "llama" 0).roast ∈
       ((roastTemplates Category.default).map fun f => "\"" ++ "llama" ++ "\" " ++ f)) ∧
    (generateRoast "I cannot sing" 1).roast ∈
      roastTemplates ((generateRoast "I cannot sing" 1).category) :=
  ⟨(C3_roast_assembly "llama" 0).1 (by decide) (by decide) (by decide) (by decide),
   (C3_roast_assembly "I cannot sing" 1).2 (by decide)⟩

/-- Claim C4: an audio request carrying a file, while `modelLoaded` is false
(state NOT_LOADED or LOADING), is answered 503 "Model not loaded yet", and
the response does not depend on what the pipeline would have returned — the
underlying model is not consulted. -/
theorem C4_model_not_ready (tr tr' : Except String String) (d d' : Nat) :
    handleAudio true false tr d =
      AudioResponse.serviceUnavailable "Model not loaded yet. Please try again in a moment." ∧
    handleAudio true false tr d = handleAudio true false tr' d' := by
  constructor <;> simp [handleAudio]

/-- Claim C5: in state LOADED, a transcription whose text trims to the empty
string is answered 400 "Could not transcribe audio", and no successful audio
response ever carries a whitespace-only transcript. -/
theorem C5_transcription_empty (text : String) (d : Nat) :
    (jsTrim text = "" → handleAudio true true (Except.ok text) d =
      AudioResponse.badRequest "Could not transcribe audio. Please try again with clearer audio.") ∧
    (∀ tr r c, handleAudio true true (Except.ok text) d = AudioResponse.ok tr r c →
      jsTrim tr ≠ "") := by
  constructor
  · intro h
    simp [handleAudio, h]
  · intro tr r c heq htr
    by_cases hcond : (text == "" || (jsTrim text).length == 0) = true
    · simp [handleAudio, hcond] at heq
    · simp [handleAudio, hcond] at heq
      have hne : jsTrim text ≠ "" := by
        simp [Bool.or_eq_true] at hcond
        intro habs
        exact absurd (by simp [habs]) hcond.2
      exact hne (heq.1 ▸ htr)

/-- Claim C5, witness: the whitespace-only transcript "   " is answered with
the 400 transcription-empty response. -/
theorem C5_transcription_empty_witness :
    jsTrim "   " = "" ∧
    handleAudio true true (Except.ok "   ") 0 =
      AudioResponse.badRequest "Could not transcribe audio. Please try again with clearer audio." :=
  ⟨by decide, (C5_transcription_empty "   " 0).1 (by decide)⟩

/-- Claim C6: a text request whose text is the empty string is rejected with
400 "Text is required" by both handler variants, whatever roast generator `g`
is installed — so `generateRoast` is never reached with the empty string
through the text endpoint. -/
theorem C6_empty_text_rejected (g : JsValue → Nat → Except String RoastData) (d : Nat) :
    handleTextV1 g (JsValue.vString "") d = TextResponse.badRequest "Text is required" ∧
    handleTextV2 g (JsValue.vString "") d = TextResponse.badRequest "Text is required" :=
  ⟨rfl, rfl⟩

/-- Claim C7, counterexample: the claim says a present non-string text is
rejected with 400 by both handler variants, but the first variant passes the
truthy non-string `42` to `generateRoast`, whose `topic.toLowerCase()` call
throws, and the catch block answers 500, not 400. -/
theorem C7_wrong_type_counterexample :
    handleTextV1 generateRoastJs (JsValue.vNumber 42) 0 = TextResponse.serverError ∧
    generateRoastJs (JsValue.vNumber 42) 0 =
      Except.error "topic.toLowerCase is not a function" :=
  ⟨rfl, rfl⟩

/-- Claim C7, amended: the second handler variant rejects every truthy
non-string text with 400 "Text must be a string" before consulting any roast
generator; the first variant instead forwards it to `generateRoast`, which
throws, so the first variant answers 500. -/
theorem C7_wrong_type_amended (g : JsValue → Nat → Except String RoastData)
    (v : JsValue) (d : Nat)
    (h1 : jsFalsy v = false) (h2 : isString v = false) :
    handleTextV2 g v d = TextResponse.badRequest "Text must be a string" ∧
    handleTextV1 generateRoastJs v d = TextResponse.serverError := by
  constructor
  · simp [handleTextV2, h1, h2]
  · cases v <;> simp_all [handleTextV1, generateRoastJs, isString, jsFalsy]

/-- Claim C7, witness: the number `42` is truthy and not a string; variant
two answers 400, variant one answers 500. -/
theorem C7_wrong_type_amended_witness :
    (jsFalsy (JsValue.vNumber 42) = false ∧ isString (JsValue.vNumber 42) = false) ∧
    (handleTextV2 generateRoastJs (JsValue.vNumber 42) 0 =
        TextResponse.badRequest "Text must be a string" ∧
      handleTextV1 generateRoastJs (JsValue.vNumber 42) 0 = TextResponse.serverError) :=
  ⟨⟨by decide, by decide⟩,
   C7_wrong_type_amended generateRoastJs (JsValue.vNumber 42) 0 (by decide) (by decide)⟩

/-- Claim C8: calling `initializeModel` while `modelLoading` is true returns
immediately with the state unchanged — `whisperPipeline`, `modelLoaded` and
`modelLoading` keep their values — and the underlying pipeline load is not
started. -/
theorem C8_initialize_noop (s : ServerModelState) (o : LoadOutcome)
    (h : s.modelLoading = true) :
    initializeModel s o = (s, false) := by
  simp [initializeModel, h]

/-- Claim C8, witness: from a loading state, `initializeModel` changes
nothing and starts no load, even when the pipeline load would succeed. -/
theorem C8_initialize_noop_witness :
    (⟨none, true, false⟩ : ServerModelState).modelLoading = true ∧
    initializeModel ⟨none, true, false⟩ LoadOutcome.success =
      ((⟨none, true, false⟩ : ServerModelState), false) :=
  ⟨rfl, C8_initialize_noop ⟨none, true, false⟩ LoadOutcome.success rfl⟩

/-- Claim C9: the category returned by `generateRoast` depends only on the
topic — two calls with the same topic and arbitrary different random draws
return the same category. -/
theorem C9_category_deterministic (t : String) (d e : Nat) :
    (generateRoast t d).category = (generateRoast t e).category := rfl

/-- Claim C10: `generateRoast` applied directly to the empty string succeeds:
it returns category `default` and a roast equal to a quoted empty string, a
space, and one of the three default fragments, for every random draw — the
empty-input guard lives only in the HTTP handlers. -/
theorem C10_total_on_empty (d : Nat) :
    (generateRoast "" d).category = Category.default ∧
    (generateRoast "" d).roast ∈
      ((roastTemplates Category.default).map fun f => "\"\" " ++ f) := by
  constructor
  · rfl
  · exact List.mem_map_of_mem (fun f => "\"\" " ++ f)
      (getD_mod_mem "" (roastTemplates Category.default) d
        (roastTemplates_ne_nil Category.default))

end ServerRoast
